import Mathlib

/-
Verification of the Factor Fund model calculation engine
(src/factor-fund-python-model-enhanced.py, class FactorFundModelEnhanced,
and the request handler src/app.py, function run_model).

Embedding conventions:
- Python float arithmetic is embedded as exact rational arithmetic over ℚ.
- Python functions that can raise an exception are embedded as Option-valued
  functions; `none` marks an exception escaping the function.  Division of two
  plain Python floats by zero raises ZeroDivisionError (guarded by `none`
  where the source can hit it), while numpy/pandas float division by zero
  yields inf without raising; the latter is embedded as plain ℚ division
  (whose value at a zero denominator is 0) and never decides a claim.
- pandas DataFrames are embedded as lists of per-row structures, one field
  per column.
- The model object is mutable in Python; every calculation reads the fields
  of the current object, so the embedding passes the whole configuration
  record explicitly.  Derived quantities (total_management_fees,
  net_investable, total_deployable) are functions of the current fields,
  matching their recomputation in app.py lines 52-54 before any calculation
  runs.
-/

set_option maxRecDepth 8000

attribute [local semireducible] Rat.add Rat.mul Rat.inv Rat.sub Rat.ofScientific

namespace FactorFund

/-- Per-category investment parameters, one field per key of the Python dicts
in `investment_params` (source lines 39-68).  Keys that a given category does
not carry in Python default to 0 here; the source never reads a key that its
dict does not carry. -/
structure CatParams where
  count : ℚ := 0
  avg_check : ℚ := 0
  pre_money_val : ℚ := 0
  ownership : ℚ := 0
  allocation : ℚ := 0
  target_moic : ℚ := 0
deriving DecidableEq

/-- One outcome bucket of a power-law distribution (source lines 71-85). -/
structure Bucket where
  probability : ℚ
  multiple : ℚ
deriving DecidableEq

/-- The mutable state of a FactorFundModelEnhanced object: fund-level scalars,
the five per-category parameter records, and the two power-law bucket sets. -/
structure Config where
  fund_size : ℚ
  management_fee_rate : ℚ
  carried_interest_rate : ℚ
  fund_life : ℕ
  investment_period : ℕ
  operating_expenses : ℚ
  recycling_amount : ℚ
  seed : CatParams
  shared_safe : CatParams
  series_a : CatParams
  incubation : CatParams
  recycled : CatParams
  power_law_seed : List (String × Bucket)
  power_law_series_a : List (String × Bucket)
deriving DecidableEq

/-- Derived: total_management_fees = fund_size * management_fee_rate * fund_life
(source lines 28-30, recomputed in app.py line 52). -/
def total_management_fees (cfg : Config) : ℚ :=
  cfg.fund_size * cfg.management_fee_rate * (cfg.fund_life : ℚ)

/-- Derived: net_investable = fund_size - total_management_fees - operating_expenses
(source lines 32-34, recomputed in app.py line 53). -/
def net_investable (cfg : Config) : ℚ :=
  cfg.fund_size - total_management_fees cfg - cfg.operating_expenses

/-- Derived: total_deployable = net_investable + recycling_amount
(source line 36, recomputed in app.py line 54). -/
def total_deployable (cfg : Config) : ℚ :=
  net_investable cfg + cfg.recycling_amount

/-- The constructor FactorFundModelEnhanced.__init__ (source lines 19-85):
default rates, lifetimes, expenses, the five investment parameter dicts and
the two power-law distributions. -/
def FactorFundModelEnhanced (fund_size : ℚ := 50.0) : Config where
  fund_size := fund_size
  management_fee_rate := 0.02
  carried_interest_rate := 0.20
  fund_life := 10
  investment_period := 4
  operating_expenses := 2.0
  recycling_amount := 7.0
  seed := { count := 10, avg_check := 1.5, pre_money_val := 15.0,
            ownership := 0.10, allocation := 15.0 }
  shared_safe := { count := 6, avg_check := 2.0, pre_money_val := 10.0,
                   ownership := 0.20, allocation := 12.0 }
  series_a := { count := 6, avg_check := 2.0, pre_money_val := 40.0,
                ownership := 0.05, allocation := 12.0 }
  incubation := { count := 0, allocation := 4.0, target_moic := 3.0 }
  recycled := { count := 3, avg_check := 0.67, allocation := 2.0,
                target_moic := 5.0 }
  power_law_seed :=
    [("home_run", ⟨0.10, 50⟩), ("winners", ⟨0.20, 10⟩), ("moderate", ⟨0.30, 3⟩),
     ("return_capital", ⟨0.20, 1⟩), ("write_off", ⟨0.20, 0⟩)]
  power_law_series_a :=
    [("home_run", ⟨0.10, 30⟩), ("winners", ⟨0.20, 8⟩), ("moderate", ⟨0.30, 3⟩),
     ("return_capital", ⟨0.20, 1⟩), ("write_off", ⟨0.20, 0⟩)]

/-- Lookup self.investment_params[investment_type] (source line 89) for the
five keys the source uses. -/
def paramsFor (cfg : Config) (investment_type : String) : CatParams :=
  if investment_type = "seed" then cfg.seed
  else if investment_type = "shared_safe" then cfg.shared_safe
  else if investment_type = "series_a" then cfg.series_a
  else if investment_type = "incubation" then cfg.incubation
  else cfg.recycled

/-- The power-law distribution calculate_equity_returns selects for a given
investment type (source lines 93-97): power_law_seed for "seed", else
power_law_series_a. -/
def distributionFor (cfg : Config) (investment_type : String) :
    List (String × Bucket) :=
  if investment_type = "seed" then cfg.power_law_seed else cfg.power_law_series_a

/-- One entry of the returns_by_outcome dict (source lines 107-112).  The
Python key "return" is rendered as the field outcome_return, after the local
variable of the same value. -/
structure OutcomeRow where
  companies : ℚ
  capital : ℚ
  outcome_return : ℚ
  multiple : ℚ
deriving DecidableEq

/-- Result dict of calculate_equity_returns (source lines 116-121). -/
structure EquityReturns where
  total_invested : ℚ
  total_return : ℚ
  moic : ℚ
  breakdown : List (String × OutcomeRow)
deriving DecidableEq

/-- calculate_equity_returns (source lines 87-121).  For each bucket of the
selected power-law distribution it scales count and allocation by the bucket
probability and multiplies the scaled capital by the bucket multiple; the
final moic division of two plain floats raises ZeroDivisionError when the
allocation is 0, embedded as `none`. -/
def calculate_equity_returns (cfg : Config) (investment_type : String) :
    Option EquityReturns :=
  let params := paramsFor cfg investment_type
  let total_invested := params.allocation
  let count := params.count
  let distribution := distributionFor cfg investment_type
  let breakdown := distribution.map (fun os =>
    let specs := os.2
    let companies := count * specs.probability
    let capital := total_invested * specs.probability
    let outcome_return := capital * specs.multiple
    (os.1, OutcomeRow.mk companies capital outcome_return specs.multiple))
  let total_return := (breakdown.map (fun b => b.2.outcome_return)).sum
  if total_invested = 0 then none
  else some ⟨total_invested, total_return, total_return / total_invested, breakdown⟩

/-- The cash_flows dict of calculate_revenue_share_returns
(source lines 133-138). -/
structure RevenueShareCashFlows where
  year_1_2 : ℚ
  year_3_4 : ℚ
  year_5 : ℚ
  year_7_10 : ℚ
deriving DecidableEq

/-- Result dict of calculate_revenue_share_returns (source lines 140-147). -/
structure RevenueShareReturns where
  total_invested : ℚ
  revenue_share_return : ℚ
  equity_return : ℚ
  total_return : ℚ
  moic : ℚ
  cash_flow_schedule : RevenueShareCashFlows
deriving DecidableEq

/-- calculate_revenue_share_returns (source lines 123-147): fixed-ratio model
on the shared_safe allocation.  The moic division raises ZeroDivisionError
when the allocation is 0, embedded as `none`. -/
def calculate_revenue_share_returns (cfg : Config) : Option RevenueShareReturns :=
  let total_invested := cfg.shared_safe.allocation
  let revenue_share_return := total_invested * 2.5
  let equity_portion := total_invested * 0.40
  let equity_return := equity_portion * 1.5
  let total_return := revenue_share_return + equity_return
  let cash_flows : RevenueShareCashFlows :=
    ⟨revenue_share_return * 0.20, revenue_share_return * 0.40,
     revenue_share_return * 0.40, equity_return⟩
  if total_invested = 0 then none
  else some ⟨total_invested, revenue_share_return, equity_return, total_return,
             total_return / total_invested, cash_flows⟩

/-- One row of the portfolio DataFrame (source lines 166-212), fields in
column order: Category, Invested, Gross Return, MOIC, % of Portfolio. -/
structure PortfolioRow where
  category : String
  invested : ℚ
  grossReturn : ℚ
  moic : ℚ
  pctOfPortfolio : ℚ
deriving DecidableEq

/-- calculate_portfolio_returns (source lines 149-217).  Builds the five
category rows in source order, then appends the synthetic Total Portfolio
row: invested = sum of the Invested column, gross return = sum of the Gross
Return column plus the 5.0 residual (line 209), percent = 100, MOIC = total
gross return / total invested (line 213; a numpy float division, which cannot
raise).  The percent columns divide plain floats by total_deployable, raising
when that is 0; the equity and revenue-share calculators raise when their
allocation is 0.  Each such exception is embedded as `none`. -/
def calculate_portfolio_returns (cfg : Config) : Option (List PortfolioRow) :=
  if total_deployable cfg = 0 then none else
  (calculate_equity_returns cfg "seed").bind fun seedR =>
  (calculate_revenue_share_returns cfg).bind fun safeR =>
  (calculate_equity_returns cfg "series_a").bind fun saR =>
  let rows : List PortfolioRow :=
    [⟨"Seed", seedR.total_invested, seedR.total_return, seedR.moic,
      seedR.total_invested / total_deployable cfg * 100⟩,
     ⟨"Shared SAFE", safeR.total_invested, safeR.total_return, safeR.moic,
      safeR.total_invested / total_deployable cfg * 100⟩,
     ⟨"Series A", saR.total_invested, saR.total_return, saR.moic,
      saR.total_invested / total_deployable cfg * 100⟩,
     ⟨"Incubation", cfg.incubation.allocation,
      cfg.incubation.allocation * cfg.incubation.target_moic,
      cfg.incubation.target_moic,
      cfg.incubation.allocation / total_deployable cfg * 100⟩,
     ⟨"Recycled", cfg.recycled.allocation,
      cfg.recycled.allocation * cfg.recycled.target_moic,
      cfg.recycled.target_moic,
      cfg.recycled.allocation / total_deployable cfg * 100⟩]
  let total_invested := (rows.map (fun r => r.invested)).sum
  let total_gross := (rows.map (fun r => r.grossReturn)).sum + 5.0
  some (rows ++ [⟨"Total Portfolio", total_invested, total_gross,
                  total_gross / total_invested, 100⟩])

/-- One row of the cash-flow DataFrame (source lines 228-275), fields in
column order: Year, Capital Calls, Revenue Share, Equity Exits, Total
Distribution, Net Cash Flow, Cumulative Distribution, DPI, Gross Profit,
Carry Due, Net to LPs. -/
structure CashFlowRow where
  year : ℕ
  capitalCall : ℚ
  revenueShare : ℚ
  equityExit : ℚ
  totalDistribution : ℚ
  netCashFlow : ℚ
  cumulativeDistribution : ℚ
  dpi : ℚ
  grossProfit : ℚ
  carryDue : ℚ
  netToLPs : ℚ
deriving DecidableEq

/-- The per-year inputs of one cash-flow row before the derived columns:
year label, capital call, revenue share, equity exit. -/
structure CashFlowEntry where
  year : ℕ
  capitalCall : ℚ
  revenueShare : ℚ
  equityExit : ℚ
deriving DecidableEq

/-- The fixed literal equity-exit sequence (source line 251).  Its length is
10; pandas assignment of this list into the DataFrame raises ValueError
whenever fund_life is not 10. -/
def equity_exits : List ℚ := [0, 0, 3, 8, 12, 20, 32, 40, 32, 75.5]

/-- The ten per-year input rows of calculate_cash_flows for fund_life = 10
(source lines 240-252): capital calls of -fund_size/4 in years 1-4, the
revenue-share schedule split 40/60 over years 1-2 and 3-4, the year-5 bucket
in year 5, the flat 1.8 tail in years 6-9, and the equity-exit literal. -/
def cashFlowEntries (cfg : Config) (rs : RevenueShareReturns) : List CashFlowEntry :=
  let cc := -cfg.fund_size / 4
  let s := rs.cash_flow_schedule
  [⟨1, cc, s.year_1_2 * 0.4, 0⟩,
   ⟨2, cc, s.year_1_2 * 0.6, 0⟩,
   ⟨3, cc, s.year_3_4 * 0.4, 3⟩,
   ⟨4, cc, s.year_3_4 * 0.6, 8⟩,
   ⟨5, 0, s.year_5, 12⟩,
   ⟨6, 0, 1.8, 20⟩,
   ⟨7, 0, 1.8, 32⟩,
   ⟨8, 0, 1.8, 40⟩,
   ⟨9, 0, 1.8, 32⟩,
   ⟨10, 0, 0, 75.5⟩]

/-- The derived columns of calculate_cash_flows (source lines 254-275),
computed row by row: total distribution, net cash flow, running cumulative
distribution, DPI = cumulative distribution / fund_size, gross profit =
cumulative distribution - fund_size, carry due = max(0, gross profit * 0.20)
with the rate hard-coded as the literal 0.20 in the lambda of line 271, and
net to LPs = total distribution - (carry due - previous carry due), the
previous carry due of the first row being 0 (shift(1).fillna(0)).
Arguments: the entries still to process, the cumulative distribution so far,
and the carry due of the previous row. -/
def buildCashFlowRows (cfg : Config) :
    List CashFlowEntry → ℚ → ℚ → List CashFlowRow
  | [], _, _ => []
  | e :: rest, cum, prevCarry =>
    let totalDistribution := e.revenueShare + e.equityExit
    let netCashFlow := e.capitalCall + totalDistribution
    let cumulative := cum + totalDistribution
    let dpi := cumulative / cfg.fund_size
    let grossProfit := cumulative - cfg.fund_size
    let carryDue := max 0 (grossProfit * 0.20)
    let netToLPs := totalDistribution - (carryDue - prevCarry)
    ⟨e.year, e.capitalCall, e.revenueShare, e.equityExit, totalDistribution,
     netCashFlow, cumulative, dpi, grossProfit, carryDue, netToLPs⟩ ::
      buildCashFlowRows cfg rest cumulative carryDue

/-- calculate_cash_flows (source lines 219-277).  Calls
calculate_revenue_share_returns first (line 224; its ZeroDivisionError
propagates), then builds the DataFrame.  The assignment of the 10-element
equity-exit literal into the fund_life-row frame (line 252) raises ValueError
unless fund_life = 10, so the function returns a frame exactly when
fund_life = 10.  The DPI column is a pandas float division by fund_size,
which yields inf rather than raising when fund_size is 0. -/
def calculate_cash_flows (cfg : Config) : Option (List CashFlowRow) :=
  (calculate_revenue_share_returns cfg).bind fun safe_returns =>
  if cfg.fund_life = 10 then
    some (buildCashFlowRows cfg (cashFlowEntries cfg safe_returns) 0 0)
  else none

/-- Net present value of a cash-flow series at a given rate, the equation the
IRR root-finder solves: the i-th entry is discounted by (1 + rate)^i. -/
def npv (rate : ℚ) (values : List ℚ) : ℚ :=
  (values.enum.map (fun iv => iv.2 / (1 + rate) ^ iv.1)).sum

/-- Bounded bisection of npv over a rate bracket, fuel steps. -/
def bisectIrr (values : List ℚ) : ℕ → ℚ → ℚ → ℚ
  | 0, lo, hi => (lo + hi) / 2
  | n + 1, lo, hi =>
    let mid := (lo + hi) / 2
    if npv lo values * npv mid values ≤ 0 then bisectIrr values n lo mid
    else bisectIrr values n mid hi

/-- Modelled from the spec: `numpy_financial.irr`, the external root-finder
the source calls at line 297, is a library dependency whose code is not part
of this repository.  Per its published documentation and the description in
section 4.4 of the specification, it returns NaN - embedded as `none` - when
the series admits no internal rate of return, which is the case whenever all
entries share one weak sign (the same-sign early exit, and, when some entries
are zero, the absence of a positive real root of a polynomial whose
coefficients all share one weak sign); it raises an exception only for input
that is not one-dimensional, which the source never passes.  On mixed-sign
input it finds a root; here a bounded bisection over the rate bracket
[-0.99, 10] stands in for the library root selection.  No claim depends on
the numeric value of the root, only on the NaN behaviour on sign-invariant
series and on the function being a function of the series alone. -/
def npf_irr (values : List ℚ) : Option ℚ :=
  if values.all (fun v => 0 ≤ v) ∨ values.all (fun v => v ≤ 0) then none
  else if npv (-0.99) values * npv 10 values ≤ 0 then
    some (bisectIrr values 20 (-0.99) 10)
  else none

/-- The LP cash-flow series handed to the IRR solver (source lines 292-297):
the Capital Calls column of the cash-flow frame followed by one terminal
entry equal to the sum of the Net to LPs column (the expression
lp_cash_flows[:-1] + [sum(...)] drops the iloc[-1] element it had appended at
line 293 and appends the sum instead). -/
def lp_cash_flow_series (cfg : Config) : Option (List ℚ) :=
  (calculate_cash_flows cfg).bind fun cash_flows =>
  some (cash_flows.map (fun r => r.capitalCall) ++
        [(cash_flows.map (fun r => r.netToLPs)).sum])

/-- Result dict of calculate_lp_returns (source lines 301-312).  The net_irr
field is Option-valued because npf.irr returns NaN on degenerate series;
`none` embeds NaN. -/
structure LPReturns where
  gross_returns : ℚ
  gross_moic : ℚ
  gross_profit : ℚ
  carry : ℚ
  net_profit_to_lps : ℚ
  total_lp_distribution : ℚ
  net_moic : ℚ
  net_irr : Option ℚ
  management_fees : ℚ
  operating_expenses : ℚ
deriving DecidableEq

/-- calculate_lp_returns (source lines 279-312).  Reads the Gross Return of
the first row whose Category is "Total Portfolio" (line 281; .values[0]
raises IndexError when no row matches, embedded as `none`), derives the
whole-fund waterfall from it, rebuilds the cash-flow frame (line 291; its
exceptions propagate - they are raised outside the try block), and hands the
LP series to npf.irr inside try/except.  The except branch that would yield
the 0.185 default fires only when npf.irr raises, which it does not do for
the rank-1 series built here: a NaN result is returned as is.  The moic
divisions here divide numpy floats, which yield inf rather than raising when
fund_size is 0. -/
def calculate_lp_returns (cfg : Config) (portfolio_returns : List PortfolioRow) :
    Option LPReturns :=
  (portfolio_returns.find? (fun r => r.category = "Total Portfolio")).bind
    fun totalRow =>
  let gross_returns := totalRow.grossReturn
  let gross_profit := gross_returns - cfg.fund_size
  let carry :=
    if gross_profit > 0 then gross_profit * cfg.carried_interest_rate else 0
  let net_profit_to_lps := gross_profit - carry
  let total_lp_distribution := cfg.fund_size + net_profit_to_lps
  (lp_cash_flow_series cfg).bind fun lp_cash_flows =>
  let irr := npf_irr lp_cash_flows
  some ⟨gross_returns, gross_returns / cfg.fund_size, gross_profit, carry,
        net_profit_to_lps, total_lp_distribution,
        total_lp_distribution / cfg.fund_size, irr,
        total_management_fees cfg, cfg.operating_expenses⟩

/-- One row of the sensitivity DataFrame (source lines 535-543), fields in
column order: Scenario, Gross Returns, Gross MOIC, Net MOIC.  The Net IRR (%)
column is a real-valued function of the Net MOIC alone (source line 533); it
is kept out of the record so that the record stays decidable, and is embedded
as the accessor netIrrPct below. -/
structure SensitivityRow where
  scenario : String
  grossReturns : ℚ
  grossMoic : ℚ
  netMoic : ℚ
deriving DecidableEq

/-- The Net IRR (%) column of the sensitivity table (source line 533):
irr_estimate = (moic ** (1 / 10) - 1) * 100, with the fund life hard-coded as
the literal 10 and the value expressed in percent. -/
noncomputable def netIrrPct (row : SensitivityRow) : ℝ :=
  ((row.netMoic : ℝ) ^ ((1 : ℝ) / 10) - 1) * 100

/-- sensitivity_analysis (source lines 516-545).  Runs the base-case waterfall
through calculate_lp_returns (line 518; its exceptions propagate), then for
the three multipliers 0.7, 1.0, 1.3 rescales the base gross returns and
rederives profit, carry, net distribution and net MOIC with the same
whole-fund formulas. -/
def sensitivity_analysis (cfg : Config) (portfolio_returns : List PortfolioRow) :
    Option (List SensitivityRow) :=
  (calculate_lp_returns cfg portfolio_returns).bind fun base_case =>
  let scenario := fun (name : String) (multiplier : ℚ) =>
    let gross := base_case.gross_returns * multiplier
    let profit := gross - cfg.fund_size
    let carry := if profit > 0 then profit * cfg.carried_interest_rate else 0
    let net := cfg.fund_size + profit - carry
    let moic := net / cfg.fund_size
    SensitivityRow.mk name gross (gross / cfg.fund_size) moic
  some [scenario "Downside (-30%)" 0.7, scenario "Base Case" 1.0,
        scenario "Upside (+30%)" 1.3]

/-- A partial per-category update from the request body (app.py lines 46-49):
dict.update overwrites exactly the keys present in the request. -/
structure CatUpdate where
  count : Option ℚ := none
  avg_check : Option ℚ := none
  pre_money_val : Option ℚ := none
  ownership : Option ℚ := none
  allocation : Option ℚ := none
  target_moic : Option ℚ := none
deriving DecidableEq

/-- model.investment_params[category].update(params): keys present in the
update replace the stored ones, the rest are retained. -/
def applyCatUpdate (p : CatParams) (u : CatUpdate) : CatParams where
  count := u.count.getD p.count
  avg_check := u.avg_check.getD p.avg_check
  pre_money_val := u.pre_money_val.getD p.pre_money_val
  ownership := u.ownership.getD p.ownership
  allocation := u.allocation.getD p.allocation
  target_moic := u.target_moic.getD p.target_moic

/-- The JSON body of a POST to /api/model/run (app.py lines 27-49): every
parameter optional, absent ones keep the model defaults. -/
structure RequestParams where
  fund_size : Option ℚ := none
  management_fee_rate : Option ℚ := none
  carried_interest_rate : Option ℚ := none
  fund_life : Option ℕ := none
  investment_period : Option ℕ := none
  seed : Option CatUpdate := none
  shared_safe : Option CatUpdate := none
  series_a : Option CatUpdate := none
  incubation : Option CatUpdate := none
  recycled : Option CatUpdate := none
deriving DecidableEq

/-- The model state run_model computes with: the default construction at the
requested fund size (app.py line 33), then the field and per-category
overrides of app.py lines 36-49.  The derived totals recomputed at lines
52-54 are the functions total_management_fees, net_investable and
total_deployable of this state. -/
def modelOf (data : RequestParams) : Config :=
  let model := FactorFundModelEnhanced (data.fund_size.getD 50.0)
  { model with
    management_fee_rate := data.management_fee_rate.getD model.management_fee_rate
    carried_interest_rate := data.carried_interest_rate.getD model.carried_interest_rate
    fund_life := data.fund_life.getD model.fund_life
    investment_period := data.investment_period.getD model.investment_period
    seed := (data.seed.map (applyCatUpdate model.seed)).getD model.seed
    shared_safe := (data.shared_safe.map (applyCatUpdate model.shared_safe)).getD model.shared_safe
    series_a := (data.series_a.map (applyCatUpdate model.series_a)).getD model.series_a
    incubation := (data.incubation.map (applyCatUpdate model.incubation)).getD model.incubation
    recycled := (data.recycled.map (applyCatUpdate model.recycled)).getD model.recycled }

/-- The calculation results serialized into the 200 response of run_model
(app.py lines 57-95).  The chart image and the echoed parameter blocks carry
no computational content and are omitted. -/
structure ModelResponse where
  portfolio_returns : List PortfolioRow
  lp_returns : LPReturns
  cash_flows : List CashFlowRow
  sensitivity : List SensitivityRow
deriving DecidableEq

/-- run_model (app.py lines 23-98).  The whole body sits in one try/except:
any exception from the four calculation calls is caught and returned as an
HTTP 400 carrying the exception text, embedded as `none`; a completed run
returns the 200 payload.  No validation of fund_size, fund_life or the
category parameters happens anywhere on the path.  The chart rendering of
line 63 is the excluded rendering collaborator and adds no checks of its
own on this data. -/
def run_model (data : RequestParams) : Option ModelResponse :=
  let model := modelOf data
  (calculate_portfolio_returns model).bind fun portfolio_returns =>
  (calculate_lp_returns model portfolio_returns).bind fun lp_returns =>
  (calculate_cash_flows model).bind fun cash_flows =>
  (sensitivity_analysis model portfolio_returns).bind fun sensitivity =>
  some ⟨portfolio_returns, lp_returns, cash_flows, sensitivity⟩

/-- Fallback cash-flow row used only as the default of getD in closed
statements; its isSome companion conjuncts rule out the fallback being read. -/
def noRow : CashFlowRow := ⟨0, 0, 0, 0, 0, 0, 0, 0, 0, 0, 0⟩

/-- Fallback LP-returns record for getD in closed statements; its net_irr is
a sentinel value so the fallback cannot imitate a NaN result. -/
def noLP : LPReturns := ⟨0, 0, 0, 0, 0, 0, 0, some 999, 0, 0⟩

/-- The concrete revenue-share result at the default configuration, used by
the C8 witness. -/
def c8result : RevenueShareReturns :=
  (calculate_revenue_share_returns (FactorFundModelEnhanced 50)).getD
    ⟨0, 0, 0, 0, 0, ⟨0, 0, 0, 0⟩⟩

/-- The concrete portfolio table at the default configuration, used by the
C1 witness. -/
def c1table : List PortfolioRow :=
  (calculate_portfolio_returns (FactorFundModelEnhanced 50)).getD []

/-- The concrete seed equity result at the default configuration, used by
the C3 witness. -/
def c3result : EquityReturns :=
  (calculate_equity_returns (FactorFundModelEnhanced 50) "seed").getD ⟨0, 0, 0, []⟩

/-- The concrete cash-flow schedule at the default configuration, used by the
C5 witness. -/
def c5rows : List CashFlowRow :=
  (calculate_cash_flows (FactorFundModelEnhanced 50)).getD []

/-- The failing configuration of claim C2: every default, but the carried
interest rate set to 0 (as the request handler permits). -/
def c2cfg : Config := { FactorFundModelEnhanced 50 with carried_interest_rate := 0 }

/-- The failing configuration of claim C4: a non-positive fund size makes the
capital calls non-negative, so the LP cash-flow series has no sign change. -/
def c4cfg : Config := FactorFundModelEnhanced (-4)

/-- The portfolio table of the C4 configuration. -/
def c4portfolio : List PortfolioRow := (calculate_portfolio_returns c4cfg).getD []

/-- The LP returns of the C4 configuration. -/
def c4lp : LPReturns := (calculate_lp_returns c4cfg c4portfolio).getD noLP

/-- First concrete table of the C10 witness. -/
def c10t1 : List PortfolioRow :=
  [⟨"Seed", 1, 2, 3, 4⟩, ⟨"Total Portfolio", 45, 254.1, 5.6, 100⟩]

/-- Second concrete table of the C10 witness: same total gross return, every
other cell different. -/
def c10t2 : List PortfolioRow :=
  [⟨"Total Portfolio", 99, 254.1, 1, 7⟩, ⟨"Extra", 8, 8, 8, 8⟩]

/-- The portfolio table of the C6 witness. -/
def c6portfolio : List PortfolioRow :=
  (calculate_portfolio_returns (FactorFundModelEnhanced 50)).getD []

/-- The LP returns of the C6 witness. -/
def c6lp : LPReturns :=
  (calculate_lp_returns (FactorFundModelEnhanced 50) c6portfolio).getD noLP

/-- The sensitivity table of the C6 witness. -/
def c6rows : List SensitivityRow :=
  (sensitivity_analysis (FactorFundModelEnhanced 50) c6portfolio).getD []

/-- The portfolio table of the C7 witness. -/
def c7portfolio : List PortfolioRow :=
  (calculate_portfolio_returns (FactorFundModelEnhanced 50)).getD []

/-- The sensitivity table of the C7 witness. -/
def c7rows : List SensitivityRow :=
  (sensitivity_analysis (FactorFundModelEnhanced 50) c7portfolio).getD []

/-- The request of the C9 witness: fund_life 3, all else default. -/
def c9lowlife : RequestParams := { fund_life := some 3 }

/-- The request of the C9 counterexample: a non-positive fund size, all else
default. -/
def c9badsize : RequestParams := { fund_size := some (-4) }

/-- Characterization of calculate_revenue_share_returns: it succeeds exactly
on a nonzero shared_safe allocation, and the result record is the explicit
fixed-ratio model of source lines 128-147. -/
lemma calculate_revenue_share_returns_eq_some (cfg : Config)
    (r : RevenueShareReturns) :
    calculate_revenue_share_returns cfg = some r ↔
      cfg.shared_safe.allocation ≠ 0 ∧
      r = ⟨cfg.shared_safe.allocation,
           cfg.shared_safe.allocation * 2.5,
           cfg.shared_safe.allocation * 0.40 * 1.5,
           cfg.shared_safe.allocation * 2.5 + cfg.shared_safe.allocation * 0.40 * 1.5,
           (cfg.shared_safe.allocation * 2.5 + cfg.shared_safe.allocation * 0.40 * 1.5) /
             cfg.shared_safe.allocation,
           ⟨cfg.shared_safe.allocation * 2.5 * 0.20,
            cfg.shared_safe.allocation * 2.5 * 0.40,
            cfg.shared_safe.allocation * 2.5 * 0.40,
            cfg.shared_safe.allocation * 0.40 * 1.5⟩⟩ := by
  simp only [calculate_revenue_share_returns]
  split
  next h0 =>
    constructor
    · intro hc; exact Option.noConfusion hc
    · rintro ⟨hne, -⟩; exact absurd h0 hne
  next h0 =>
    simp only [Option.some.injEq]
    constructor
    · intro h1; exact ⟨h0, h1.symm⟩
    · rintro ⟨-, rfl⟩; rfl

/-- calculate_cash_flows succeeds only when fund_life is 10 (the 10-element
equity-exit literal otherwise fails to assign). -/
lemma fund_life_of_cash_flows (cfg : Config) (s : List CashFlowRow)
    (h : calculate_cash_flows cfg = some s) : cfg.fund_life = 10 := by
  unfold calculate_cash_flows at h
  cases hrs : calculate_revenue_share_returns cfg with
  | none => rw [hrs] at h; exact Option.noConfusion h
  | some rs =>
    rw [hrs, Option.some_bind] at h
    split at h
    · assumption
    · exact Option.noConfusion h

/-- calculate_cash_flows fails whenever fund_life is not 10. -/
lemma cash_flows_eq_none (cfg : Config) (h : cfg.fund_life ≠ 10) :
    calculate_cash_flows cfg = none := by
  cases hs : calculate_cash_flows cfg with
  | none => rfl
  | some s => exact absurd (fund_life_of_cash_flows cfg s hs) h

/-- Claim C8: for every shared_safe allocation a that is at least 0 (and on
which the function returns, i.e. a is nonzero), calculate_revenue_share_returns
returns revenue_share_return = a * 2.5, equity_return = (a * 0.40) * 1.5,
total_return equal to their sum, and a cash-flow schedule assigning 0.20,
0.40 and 0.40 of revenue_share_return to the year 1-2, 3-4 and 5 buckets and
the entire equity_return to the year 7-10 bucket. -/
theorem c8_revenue_share_model (cfg : Config)
    (halloc : 0 ≤ cfg.shared_safe.allocation)
    (r : RevenueShareReturns)
    (h : calculate_revenue_share_returns cfg = some r) :
    r.revenue_share_return = cfg.shared_safe.allocation * 2.5 ∧
    r.equity_return = cfg.shared_safe.allocation * 0.40 * 1.5 ∧
    r.total_return = r.revenue_share_return + r.equity_return ∧
    r.cash_flow_schedule.year_1_2 = 0.20 * r.revenue_share_return ∧
    r.cash_flow_schedule.year_3_4 = 0.40 * r.revenue_share_return ∧
    r.cash_flow_schedule.year_5 = 0.40 * r.revenue_share_return ∧
    r.cash_flow_schedule.year_7_10 = r.equity_return := by
  obtain ⟨-, rfl⟩ := (calculate_revenue_share_returns_eq_some cfg r).mp h
  refine ⟨rfl, rfl, rfl,
    (by show cfg.shared_safe.allocation * 2.5 * 0.20 =
          0.20 * (cfg.shared_safe.allocation * 2.5); ring),
    (by show cfg.shared_safe.allocation * 2.5 * 0.40 =
          0.40 * (cfg.shared_safe.allocation * 2.5); ring),
    (by show cfg.shared_safe.allocation * 2.5 * 0.40 =
          0.40 * (cfg.shared_safe.allocation * 2.5); ring),
    rfl⟩

theorem c8_revenue_share_model_witness :
    0 ≤ (FactorFundModelEnhanced 50).shared_safe.allocation ∧
    calculate_revenue_share_returns (FactorFundModelEnhanced 50) = some c8result ∧
    (c8result.revenue_share_return =
        (FactorFundModelEnhanced 50).shared_safe.allocation * 2.5 ∧
      c8result.equity_return =
        (FactorFundModelEnhanced 50).shared_safe.allocation * 0.40 * 1.5 ∧
      c8result.total_return = c8result.revenue_share_return + c8result.equity_return ∧
      c8result.cash_flow_schedule.year_1_2 = 0.20 * c8result.revenue_share_return ∧
      c8result.cash_flow_schedule.year_3_4 = 0.40 * c8result.revenue_share_return ∧
      c8result.cash_flow_schedule.year_5 = 0.40 * c8result.revenue_share_return ∧
      c8result.cash_flow_schedule.year_7_10 = c8result.equity_return) :=
  ⟨by decide, by decide,
   c8_revenue_share_model (FactorFundModelEnhanced 50) (by decide) c8result (by decide)⟩

/-- Claim C1: whenever calculate_portfolio_returns returns a table, the table
is the five category rows in fixed order followed by the Total Portfolio row,
whose invested is the sum of the five category invested values, whose gross
return is the sum of the five category gross returns plus exactly 5.0, whose
percent of portfolio is 100, and whose MOIC is its gross return divided by
its invested. -/
theorem c1_portfolio_total_row (cfg : Config) (t : List PortfolioRow)
    (h : calculate_portfolio_returns cfg = some t) :
    ∃ r1 r2 r3 r4 r5 tot : PortfolioRow,
      t = [r1, r2, r3, r4, r5, tot] ∧
      r1.category = "Seed" ∧ r2.category = "Shared SAFE" ∧
      r3.category = "Series A" ∧ r4.category = "Incubation" ∧
      r5.category = "Recycled" ∧ tot.category = "Total Portfolio" ∧
      tot.invested = r1.invested + r2.invested + r3.invested +
        r4.invested + r5.invested ∧
      tot.grossReturn = r1.grossReturn + r2.grossReturn + r3.grossReturn +
        r4.grossReturn + r5.grossReturn + 5.0 ∧
      tot.pctOfPortfolio = 100 ∧
      tot.moic = tot.grossReturn / tot.invested := by
  simp only [calculate_portfolio_returns] at h
  split at h
  · exact Option.noConfusion h
  · simp only [Option.bind_eq_some, Option.some.injEq] at h
    obtain ⟨seedR, -, safeR, -, saR, -, ht⟩ := h
    subst ht
    refine ⟨_, _, _, _, _, _, rfl, rfl, rfl, rfl, rfl, rfl, rfl, ?_, ?_, rfl, rfl⟩
    · simp only [List.map_cons, List.map_nil, List.sum_cons, List.sum_nil]
      ring
    · simp only [List.map_cons, List.map_nil, List.sum_cons, List.sum_nil]
      ring

theorem c1_portfolio_total_row_witness :
    calculate_portfolio_returns (FactorFundModelEnhanced 50) = some c1table ∧
    (∃ r1 r2 r3 r4 r5 tot : PortfolioRow,
      c1table = [r1, r2, r3, r4, r5, tot] ∧
      r1.category = "Seed" ∧ r2.category = "Shared SAFE" ∧
      r3.category = "Series A" ∧ r4.category = "Incubation" ∧
      r5.category = "Recycled" ∧ tot.category = "Total Portfolio" ∧
      tot.invested = r1.invested + r2.invested + r3.invested +
        r4.invested + r5.invested ∧
      tot.grossReturn = r1.grossReturn + r2.grossReturn + r3.grossReturn +
        r4.grossReturn + r5.grossReturn + 5.0 ∧
      tot.pctOfPortfolio = 100 ∧
      tot.moic = tot.grossReturn / tot.invested) :=
  ⟨by decide, c1_portfolio_total_row (FactorFundModelEnhanced 50) c1table (by decide)⟩

/-- Pulling a constant factor out of a list sum. -/
lemma sum_map_mul_const (l : List (String × Bucket)) (a : ℚ)
    (f : String × Bucket → ℚ) :
    (l.map (fun b => a * f b)).sum = a * (l.map f).sum := by
  induction l with
  | nil => simp
  | cons x xs ih => simp only [List.map_cons, List.sum_cons, ih]; ring

/-- Claim C3: for an equity category (seed or series_a) with positive
allocation whose bucket probabilities sum to 1, calculate_equity_returns
returns total_return equal to the sum over buckets of
allocation * probability * multiple, moic equal to total_return divided by
total_invested, and a breakdown whose capital values sum to total_invested. -/
theorem c3_equity_returns (cfg : Config) (investment_type : String)
    (hty : investment_type = "seed" ∨ investment_type = "series_a")
    (hpos : 0 < (paramsFor cfg investment_type).allocation)
    (hprob : ((distributionFor cfg investment_type).map
        (fun b => b.2.probability)).sum = 1)
    (r : EquityReturns)
    (h : calculate_equity_returns cfg investment_type = some r) :
    r.total_return = ((distributionFor cfg investment_type).map
        (fun b => (paramsFor cfg investment_type).allocation *
          b.2.probability * b.2.multiple)).sum ∧
    r.moic = r.total_return / r.total_invested ∧
    (r.breakdown.map (fun b => b.2.capital)).sum = r.total_invested := by
  clear hty
  simp only [calculate_equity_returns] at h
  split at h
  · exact Option.noConfusion h
  · obtain rfl := Option.some.inj h
    refine ⟨?_, rfl, ?_⟩
    · simp only [List.map_map]
      rfl
    · simp only [List.map_map]
      show ((distributionFor cfg investment_type).map
          (fun os => (paramsFor cfg investment_type).allocation *
            os.2.probability)).sum = (paramsFor cfg investment_type).allocation
      rw [sum_map_mul_const (distributionFor cfg investment_type)
          (paramsFor cfg investment_type).allocation (fun b => b.2.probability),
        hprob, mul_one]

theorem c3_equity_returns_witness :
    ("seed" = "seed" ∨ "seed" = "series_a") ∧
    0 < (paramsFor (FactorFundModelEnhanced 50) "seed").allocation ∧
    ((distributionFor (FactorFundModelEnhanced 50) "seed").map
      (fun b => b.2.probability)).sum = 1 ∧
    calculate_equity_returns (FactorFundModelEnhanced 50) "seed" = some c3result ∧
    (c3result.total_return = ((distributionFor (FactorFundModelEnhanced 50) "seed").map
        (fun b => (paramsFor (FactorFundModelEnhanced 50) "seed").allocation *
          b.2.probability * b.2.multiple)).sum ∧
      c3result.moic = c3result.total_return / c3result.total_invested ∧
      (c3result.breakdown.map (fun b => b.2.capital)).sum = c3result.total_invested) :=
  ⟨Or.inl rfl, by decide, by decide, by decide,
   c3_equity_returns (FactorFundModelEnhanced 50) "seed" (Or.inl rfl) (by decide)
     (by decide) c3result (by decide)⟩

/-- Every row produced by buildCashFlowRows carries the derived-column
relations of source lines 264-272: DPI is the cumulative distribution over
fund_size, gross profit is the cumulative distribution minus fund_size, and
carry due is max(0, gross profit * 0.20) with the literal rate of the lambda
at line 271. -/
lemma buildCashFlowRows_shape (cfg : Config) (entries : List CashFlowEntry) :
    ∀ (cum prevCarry : ℚ), ∀ r ∈ buildCashFlowRows cfg entries cum prevCarry,
      r.dpi = r.cumulativeDistribution / cfg.fund_size ∧
      r.grossProfit = r.cumulativeDistribution - cfg.fund_size ∧
      r.carryDue = max 0 (r.grossProfit * 0.20) := by
  induction entries with
  | nil => intro cum pc r hr; simp [buildCashFlowRows] at hr
  | cons e rest ih =>
    intro cum pc r hr
    rw [buildCashFlowRows] at hr
    rcases List.mem_cons.mp hr with rfl | hmem
    · exact ⟨rfl, rfl, rfl⟩
    · exact ih _ _ r hmem

/-- When every entry has a non-negative total distribution, the rows produced
by buildCashFlowRows have pointwise non-decreasing cumulative distribution
and carry due. -/
lemma buildCashFlowRows_chain (cfg : Config) (entries : List CashFlowEntry) :
    ∀ (cum prevCarry : ℚ),
      (∀ e ∈ entries, 0 ≤ e.revenueShare + e.equityExit) →
      List.Chain' (fun a b =>
          a.cumulativeDistribution ≤ b.cumulativeDistribution ∧
          a.carryDue ≤ b.carryDue)
        (buildCashFlowRows cfg entries cum prevCarry) := by
  induction entries with
  | nil => intro cum pc _; simp [buildCashFlowRows]
  | cons e rest ih =>
    intro cum pc hnn
    rw [buildCashFlowRows, List.chain'_cons']
    constructor
    · intro y hy
      cases rest with
      | nil => simp [buildCashFlowRows] at hy
      | cons e2 rest2 =>
        rw [buildCashFlowRows, List.head?_cons, Option.mem_def] at hy
        obtain rfl := Option.some.inj hy
        have h2 : 0 ≤ e2.revenueShare + e2.equityExit := hnn e2 (by simp)
        constructor
        · show cum + (e.revenueShare + e.equityExit) ≤
            cum + (e.revenueShare + e.equityExit) + (e2.revenueShare + e2.equityExit)
          linarith
        · show max 0 ((cum + (e.revenueShare + e.equityExit) - cfg.fund_size) * 0.20) ≤
            max 0 ((cum + (e.revenueShare + e.equityExit) +
              (e2.revenueShare + e2.equityExit) - cfg.fund_size) * 0.20)
          exact max_le_max le_rfl (by linarith)
    · exact ih _ _ (fun x hx => hnn x (List.mem_cons_of_mem _ hx))

/-- Claim C5: whenever calculate_cash_flows returns a schedule (the shared
SAFE allocation being non-negative per the data model), the cumulative
distribution is non-decreasing across years, the carry due is non-decreasing
across years, and every year satisfies DPI = cumulative distribution /
fund_size. -/
theorem c5_cash_flow_invariants (cfg : Config) (s : List CashFlowRow)
    (halloc : 0 ≤ cfg.shared_safe.allocation)
    (h : calculate_cash_flows cfg = some s) :
    List.Chain' (fun a b =>
      a.cumulativeDistribution ≤ b.cumulativeDistribution) s ∧
    List.Chain' (fun a b => a.carryDue ≤ b.carryDue) s ∧
    ∀ r ∈ s, r.dpi = r.cumulativeDistribution / cfg.fund_size := by
  unfold calculate_cash_flows at h
  cases hrs : calculate_revenue_share_returns cfg with
  | none => rw [hrs] at h; exact Option.noConfusion h
  | some rs =>
    rw [hrs, Option.some_bind] at h
    split at h
    · obtain rfl := Option.some.inj h
      obtain ⟨-, rfl⟩ := (calculate_revenue_share_returns_eq_some cfg rs).mp hrs
      have hnn : ∀ e ∈ cashFlowEntries cfg
          ⟨cfg.shared_safe.allocation,
           cfg.shared_safe.allocation * 2.5,
           cfg.shared_safe.allocation * 0.40 * 1.5,
           cfg.shared_safe.allocation * 2.5 + cfg.shared_safe.allocation * 0.40 * 1.5,
           (cfg.shared_safe.allocation * 2.5 +
             cfg.shared_safe.allocation * 0.40 * 1.5) / cfg.shared_safe.allocation,
           ⟨cfg.shared_safe.allocation * 2.5 * 0.20,
            cfg.shared_safe.allocation * 2.5 * 0.40,
            cfg.shared_safe.allocation * 2.5 * 0.40,
            cfg.shared_safe.allocation * 0.40 * 1.5⟩⟩,
          0 ≤ e.revenueShare + e.equityExit := by
        intro e he
        simp only [cashFlowEntries, List.mem_cons, List.not_mem_nil, or_false] at he
        rcases he with rfl | rfl | rfl | rfl | rfl | rfl | rfl | rfl | rfl | rfl <;>
          (simp only []; nlinarith [halloc])
      have hchain := buildCashFlowRows_chain cfg _ 0 0 hnn
      refine ⟨hchain.imp (fun _ _ hab => hab.1), hchain.imp (fun _ _ hab => hab.2),
        fun r hr => (buildCashFlowRows_shape cfg _ 0 0 r hr).1⟩
    · exact Option.noConfusion h

theorem c5_cash_flow_invariants_witness :
    0 ≤ (FactorFundModelEnhanced 50).shared_safe.allocation ∧
    calculate_cash_flows (FactorFundModelEnhanced 50) = some c5rows ∧
    (List.Chain' (fun a b =>
        a.cumulativeDistribution ≤ b.cumulativeDistribution) c5rows ∧
      List.Chain' (fun a b => a.carryDue ≤ b.carryDue) c5rows ∧
      ∀ r ∈ c5rows, r.dpi = r.cumulativeDistribution /
        (FactorFundModelEnhanced 50).fund_size) :=
  ⟨by decide, by decide,
   c5_cash_flow_invariants (FactorFundModelEnhanced 50) c5rows (by decide) (by decide)⟩

/-- Claim C2, evaluation at the failing input: with carried_interest_rate = 0
the whole-fund carry of calculate_lp_returns is 0 as the claim states, but
the Carry Due column of calculate_cash_flows is computed with the hard-coded
literal rate 0.20 of source line 271, so year 5 carries a nonzero 0.6 = 3/5
and its Net to LPs differs from its Total Distribution. -/
theorem c2_carry_rate_hardcoded :
    c2cfg.carried_interest_rate = 0 ∧
    (calculate_lp_returns c2cfg
      ((calculate_portfolio_returns c2cfg).getD [])).isSome = true ∧
    ((calculate_lp_returns c2cfg
      ((calculate_portfolio_returns c2cfg).getD [])).getD noLP).carry = 0 ∧
    (calculate_cash_flows c2cfg).isSome = true ∧
    (((calculate_cash_flows c2cfg).getD []).getD 4 noRow).carryDue = 3 / 5 ∧
    (((calculate_cash_flows c2cfg).getD []).getD 4 noRow).netToLPs ≠
      (((calculate_cash_flows c2cfg).getD []).getD 4 noRow).totalDistribution := by
  decide

/-- Claim C4, counterexample: at fund_size = -4 (all else default) the LP
cash-flow series is [1, 1, 1, 1, 0, 0, 0, 0, 0, 0, 206.96] - every entry
non-negative, no sign change - yet calculate_lp_returns returns net_irr = NaN
(none), not 0.185: npf.irr returns NaN on such a series instead of raising,
so the except branch holding the 0.185 default is never reached. -/
theorem c4_counterexample :
    lp_cash_flow_series c4cfg =
      some [1, 1, 1, 1, 0, 0, 0, 0, 0, 0, 206.96] ∧
    (([1, 1, 1, 1, 0, 0, 0, 0, 0, 0, 206.96] : List ℚ).all
      (fun v => decide (0 ≤ v))) = true ∧
    (calculate_lp_returns c4cfg c4portfolio).isSome = true ∧
    ((calculate_lp_returns c4cfg c4portfolio).getD noLP).net_irr = none := by
  decide

/-- Claim C4 as amended: when calculate_lp_returns returns and the LP
cash-flow series has all non-negative entries, the returned net_irr is NaN
(embedded none) - npf.irr yields NaN without raising on a sign-invariant
series, so the except branch that would substitute 0.185 is not taken, and
no error is propagated. -/
theorem c4_irr_nan_on_sign_invariant_series (cfg : Config)
    (t : List PortfolioRow) (s : List ℚ) (lp : LPReturns)
    (hs : lp_cash_flow_series cfg = some s)
    (hnn : ∀ v ∈ s, 0 ≤ v)
    (h : calculate_lp_returns cfg t = some lp) :
    lp.net_irr = none := by
  simp only [calculate_lp_returns, Option.bind_eq_some, Option.some.injEq] at h
  obtain ⟨row, -, ser, hser, hlp⟩ := h
  rw [hs] at hser
  obtain rfl := Option.some.inj hser
  obtain rfl := hlp
  show npf_irr s = none
  have hall : s.all (fun v => decide (0 ≤ v)) = true := by
    rw [List.all_eq_true]
    intro x hx
    exact decide_eq_true (hnn x hx)
  simp [npf_irr, hall]

theorem c4_irr_nan_on_sign_invariant_series_witness :
    lp_cash_flow_series c4cfg =
      some [1, 1, 1, 1, 0, 0, 0, 0, 0, 0, 206.96] ∧
    (∀ v ∈ ([1, 1, 1, 1, 0, 0, 0, 0, 0, 0, 206.96] : List ℚ), 0 ≤ v) ∧
    calculate_lp_returns c4cfg c4portfolio = some c4lp ∧
    c4lp.net_irr = none :=
  ⟨by decide, by decide, by decide,
   c4_irr_nan_on_sign_invariant_series c4cfg c4portfolio
     [1, 1, 1, 1, 0, 0, 0, 0, 0, 0, 206.96] c4lp
     (by decide) (by decide) (by decide)⟩

/-- Claim C10: calculate_lp_returns reads the portfolio table only through
the Gross Return of the first row whose Category is "Total Portfolio".  Two
tables agreeing on that value give identical results in every field. -/
theorem c10_lp_depends_only_on_total_gross (cfg : Config)
    (t1 t2 : List PortfolioRow) (r1 r2 : PortfolioRow)
    (h1 : t1.find? (fun r => r.category = "Total Portfolio") = some r1)
    (h2 : t2.find? (fun r => r.category = "Total Portfolio") = some r2)
    (hgr : r1.grossReturn = r2.grossReturn) :
    calculate_lp_returns cfg t1 = calculate_lp_returns cfg t2 := by
  simp only [calculate_lp_returns, h1, h2, Option.some_bind]
  rw [hgr]

theorem c10_lp_depends_only_on_total_gross_witness :
    c10t1.find? (fun r => r.category = "Total Portfolio") =
      some ⟨"Total Portfolio", 45, 254.1, 5.6, 100⟩ ∧
    c10t2.find? (fun r => r.category = "Total Portfolio") =
      some ⟨"Total Portfolio", 99, 254.1, 1, 7⟩ ∧
    (PortfolioRow.mk "Total Portfolio" 45 254.1 5.6 100).grossReturn =
      (PortfolioRow.mk "Total Portfolio" 99 254.1 1 7).grossReturn ∧
    calculate_lp_returns (FactorFundModelEnhanced 50) c10t1 =
      calculate_lp_returns (FactorFundModelEnhanced 50) c10t2 :=
  ⟨by decide, by decide, rfl,
   c10_lp_depends_only_on_total_gross (FactorFundModelEnhanced 50) c10t1 c10t2
     ⟨"Total Portfolio", 45, 254.1, 5.6, 100⟩ ⟨"Total Portfolio", 99, 254.1, 1, 7⟩
     (by decide) (by decide) rfl⟩

/-- The gross_moic field of any calculate_lp_returns result is its
gross_returns over fund_size (source line 303). -/
lemma lp_returns_gross_moic (cfg : Config) (t : List PortfolioRow)
    (lp : LPReturns) (h : calculate_lp_returns cfg t = some lp) :
    lp.gross_moic = lp.gross_returns / cfg.fund_size := by
  simp only [calculate_lp_returns, Option.bind_eq_some, Option.some.injEq] at h
  obtain ⟨row, -, ser, -, rfl⟩ := h
  rfl

/-- Claim C6: the sensitivity table is the three rows downside, base, upside;
the downside gross return is exactly 0.7 times the base gross return, the
upside exactly 1.3 times it, and the base gross MOIC equals the gross_moic
of calculate_lp_returns on the same table. -/
theorem c6_sensitivity_scaling (cfg : Config) (t : List PortfolioRow)
    (s : List SensitivityRow) (lp : LPReturns)
    (hs : sensitivity_analysis cfg t = some s)
    (hlp : calculate_lp_returns cfg t = some lp) :
    ∃ d b u : SensitivityRow, s = [d, b, u] ∧
      d.grossReturns = 0.7 * b.grossReturns ∧
      u.grossReturns = 1.3 * b.grossReturns ∧
      b.grossMoic = lp.gross_moic := by
  simp only [sensitivity_analysis, Option.bind_eq_some, Option.some.injEq] at hs
  obtain ⟨base, hbase, rfl⟩ := hs
  rw [hlp] at hbase
  obtain rfl := Option.some.inj hbase
  refine ⟨_, _, _, rfl, ?_, ?_, ?_⟩
  · show lp.gross_returns * 0.7 = 0.7 * (lp.gross_returns * 1.0)
    ring
  · show lp.gross_returns * 1.3 = 1.3 * (lp.gross_returns * 1.0)
    ring
  · rw [lp_returns_gross_moic cfg t lp hlp]
    show lp.gross_returns * 1.0 / cfg.fund_size = lp.gross_returns / cfg.fund_size
    ring

theorem c6_sensitivity_scaling_witness :
    sensitivity_analysis (FactorFundModelEnhanced 50) c6portfolio = some c6rows ∧
    calculate_lp_returns (FactorFundModelEnhanced 50) c6portfolio = some c6lp ∧
    (∃ d b u : SensitivityRow, c6rows = [d, b, u] ∧
      d.grossReturns = 0.7 * b.grossReturns ∧
      u.grossReturns = 1.3 * b.grossReturns ∧
      b.grossMoic = c6lp.gross_moic) :=
  ⟨by decide, by decide,
   c6_sensitivity_scaling (FactorFundModelEnhanced 50) c6portfolio c6rows c6lp
     (by decide) (by decide)⟩

/-- A successful calculate_lp_returns forces fund_life = 10, because it
rebuilds the cash-flow frame. -/
lemma lp_some_fund_life (cfg : Config) (t : List PortfolioRow) (lp : LPReturns)
    (h : calculate_lp_returns cfg t = some lp) : cfg.fund_life = 10 := by
  simp only [calculate_lp_returns, Option.bind_eq_some] at h
  obtain ⟨row, -, ser, hser, -⟩ := h
  simp only [lp_cash_flow_series, Option.bind_eq_some] at hser
  obtain ⟨cf, hcf, -⟩ := hser
  exact fund_life_of_cash_flows cfg cf hcf

/-- Claim C7: every row of a returned sensitivity table reports its Net IRR
(%) as (net_moic ^ (1 / fund_life) - 1) * 100 with fund_life the
configuration field: the hard-coded exponent 1/10 of source line 533
coincides with 1/fund_life on every reachable output, because the
calculation only completes when fund_life = 10. -/
theorem c7_sensitivity_irr_formula (cfg : Config) (t : List PortfolioRow)
    (s : List SensitivityRow)
    (hs : sensitivity_analysis cfg t = some s) :
    ∀ row ∈ s, netIrrPct row =
      ((row.netMoic : ℝ) ^ ((1 : ℝ) / (cfg.fund_life : ℝ)) - 1) * 100 := by
  have hlife : cfg.fund_life = 10 := by
    have hs2 := hs
    simp only [sensitivity_analysis, Option.bind_eq_some] at hs2
    obtain ⟨base, hbase, -⟩ := hs2
    exact lp_some_fund_life cfg t base hbase
  intro row _
  rw [netIrrPct, hlife]
  norm_num

theorem c7_sensitivity_irr_formula_witness :
    sensitivity_analysis (FactorFundModelEnhanced 50) c7portfolio = some c7rows ∧
    ∀ row ∈ c7rows, netIrrPct row =
      ((row.netMoic : ℝ) ^
        ((1 : ℝ) / ((FactorFundModelEnhanced 50).fund_life : ℝ)) - 1) * 100 :=
  ⟨by decide,
   c7_sensitivity_irr_formula (FactorFundModelEnhanced 50) c7portfolio c7rows
     (by decide)⟩

/-- calculate_lp_returns fails on every table once the cash-flow frame cannot
be built. -/
lemma calculate_lp_returns_none (cfg : Config) (t : List PortfolioRow)
    (h : calculate_cash_flows cfg = none) :
    calculate_lp_returns cfg t = none := by
  have hser : lp_cash_flow_series cfg = none := by
    rw [lp_cash_flow_series, h, Option.none_bind]
  cases hfind : t.find? (fun r => r.category = "Total Portfolio") with
  | none => simp [calculate_lp_returns, hfind]
  | some row => simp [calculate_lp_returns, hfind, hser]

/-- Claim C9 as amended: a request overriding fund_life below 4 is rejected -
run_model aborts with a 400 - though through the propagated pandas length
error of the equity-exit assignment, not a named configuration-error type. -/
theorem c9_low_fund_life_rejected (data : RequestParams) (f : ℕ)
    (hf : data.fund_life = some f) (h4 : f < 4) :
    run_model data = none := by
  have hlife : (modelOf data).fund_life = f := by
    simp [modelOf, hf]
  have hcf : calculate_cash_flows (modelOf data) = none := by
    apply cash_flows_eq_none
    rw [hlife]
    omega
  simp only [run_model]
  cases hp : calculate_portfolio_returns (modelOf data) with
  | none => rw [Option.none_bind]
  | some p =>
    rw [Option.some_bind, calculate_lp_returns_none _ _ hcf, Option.none_bind]

theorem c9_low_fund_life_rejected_witness :
    c9lowlife.fund_life = some 3 ∧ 3 < 4 ∧ run_model c9lowlife = none :=
  ⟨rfl, by norm_num, c9_low_fund_life_rejected c9lowlife 3 rfl (by norm_num)⟩

/-- Claim C9, counterexample: a request with the non-positive fund size -4 is
not rejected anywhere - no validation exists in the constructor or in
run_model - and the full calculation completes with a 200 response. -/
theorem c9_counterexample :
    ((-4 : ℚ) ≤ 0) ∧ (run_model c9badsize).isSome = true := by
  constructor
  · norm_num
  · decide

end FactorFund
